import Mathlib

/-!
Verification development for the Network Replication Core of the repository
(Source/Engine/Networking/NetworkReplicator.cpp).

The C++ module is embedded shallowly: the global mutable state guarded by
ObjectsLock (the Objects hash set, the spawn and despawn queues, the id
remapping table, the serializers table, the list of newly connected clients,
and the published objects-lookup mapping) becomes an explicit state record,
and every function of the module becomes a pure function from state to state
that additionally returns the list of externally visible effects (messages
handed to the transport peer, lifecycle hook invocations, object deletions,
log lines).  Guids are modelled as natural numbers (0 stands for Guid::Empty),
client ids as natural numbers with NetworkManager::ServerClientId = 0, and
scripting types as an inductive tree so that the base-type recursion of
InvokeSerializer is structural.  Iteration order of the Objects hash set is
modelled as list order.
-/

namespace FlaxNet

/-- Role of a networked object, mirroring the NetworkObjectRole enum:
None (not participating), Replicated (remote authority),
OwnedAuthoritative (local authority). -/
inductive NetworkObjectRole where
  | none
  | replicated
  | ownedAuthoritative
deriving DecidableEq, Repr

/-- Model of ScriptingTypeHandle together with the reflection facts the
replicator queries about it: GetType().GetInterface(INetworkSerializable)
(the vtable offset when the type implements the capability) and
GetType().GetBaseType().  The base type is a structural subterm so the
recursion of InvokeSerializer terminates by construction; the mk constructor
is a type without a base type, the sub constructor a type with one. -/
inductive ScriptingType where
  | mk (handle : Nat) (ifaceOffset : Option Int)
  | sub (handle : Nat) (ifaceOffset : Option Int) (base : ScriptingType)
deriving DecidableEq, Repr

/-- Handle of a scripting type (identity used as the key of SerializersTable
and compared by GetTypeHandle checks). -/
def ScriptingType.handle : ScriptingType → Nat
  | .mk h _ => h
  | .sub h _ _ => h

/-- Vtable offset of the INetworkSerializable interface implementation, when
the type advertises that capability (GetInterface result). -/
def ScriptingType.ifaceOffset : ScriptingType → Option Int
  | .mk _ off => off
  | .sub _ off _ => off

/-- Base type of a scripting type (GetBaseType), none at the root. -/
def ScriptingType.getBaseType : ScriptingType → Option ScriptingType
  | .mk _ _ => Option.none
  | .sub _ _ b => Option.some b

/-- Identity of a serializer callback slot.  The source stores raw function
pointers; the model distinguishes user-registered functions (by an arbitrary
numeric identity) from the two INetworkSerializable thunk functions
INetworkSerializable_Serialize and INetworkSerializable_Deserialize. -/
inductive SerializeFunc where
  | user (id : Nat)
  | ifaceSerialize
  | ifaceDeserialize
deriving DecidableEq, Repr

/-- Entry of SerializersTable: struct Serializer with Methods[2] and Tags[2]
(index 0 = serialize, index 1 = deserialize); tags are modelled as integers
(the source stores them as void pointers, typically a vtable offset). -/
structure Serializer where
  serializeMethod : SerializeFunc
  deserializeMethod : SerializeFunc
  serializeTag : Int
  deserializeTag : Int
deriving DecidableEq, Repr

/-- SerializersTable: Dictionary from type handle to Serializer, modelled as
an association list whose lookup returns the first matching key. -/
abbrev SerTable := List (Nat × Serializer)

/-- Dictionary.TryGet on the serializers table. -/
def tableGet (tbl : SerTable) (h : Nat) : Option Serializer :=
  (tbl.find? (fun p => p.1 == h)).map (fun p => p.2)

/-- Method-and-tag pair selected from an entry for a given direction, the
pair the call site Methods[idx](instance, stream, Tags[idx]) dispatches on. -/
def serializerPick (s : Serializer) (serialize : Bool) : SerializeFunc × Int :=
  if serialize then (s.serializeMethod, s.serializeTag)
  else (s.deserializeMethod, s.deserializeTag)

/-- Embedding of NetworkReplicator::InvokeSerializer.  Returns the updated
serializers table (the interface fallback caches a synthesized entry) and
the invoked method-tag pair, or none when resolution failed (the source
returns true for failure and performs no serialization).  The null guards on
instance and stream are not modelled (the model always has both). -/
def invokeSerializer (tbl : SerTable) (ty : ScriptingType) (serialize : Bool) :
    SerTable × Option (SerializeFunc × Int) :=
  match tableGet tbl (ScriptingType.handle ty) with
  | Option.some s => (tbl, Option.some (serializerPick s serialize))
  | Option.none =>
    match ScriptingType.ifaceOffset ty with
    | Option.some off =>
      let s : Serializer :=
        { serializeMethod := SerializeFunc.ifaceSerialize
          deserializeMethod := SerializeFunc.ifaceDeserialize
          serializeTag := off
          deserializeTag := off }
      (tbl ++ [(ScriptingType.handle ty, s)], Option.some (serializerPick s serialize))
    | Option.none =>
      match ty with
      | .mk _ _ => (tbl, Option.none)
      | .sub _ _ b => invokeSerializer tbl b serialize

/-- Distinguished client id of the server (NetworkManager::ServerClientId). -/
def serverClientId : Nat := 0

/-- Record of the Objects hash set: struct NetworkReplicatedObject.  The weak
back-reference Object is modelled by the objectAlive flag (Object.Get()
returning a live pointer) together with the reflection data the replicator
reads from the pointed-to object: its scripting type (GetTypeHandle) and
whether it implements INetworkObject (the AsNetworkObject field). -/
structure NetworkReplicatedObject where
  objectId : Nat
  parentId : Nat
  ownerClientId : Nat
  lastOwnerFrame : Nat := 0
  role : NetworkObjectRole
  spawned : Bool := false
  invalidTypeWarn : Bool := false
  targetClientIds : List Nat := []
  objectAlive : Bool := true
  objType : ScriptingType
  asNetworkObject : Bool := false
deriving DecidableEq, Repr

/-- Model of a ScriptingObject pointer as the replicator inspects it: its id
(GetID), whether the weak references to it still resolve, its type, the
scene parent (Cast to SceneObject then GetParent, none when the object is not
a scene object or has no parent), the ids of all transitive scene ancestors
(the chain the recursive IsParentOf helper walks), and whether the object
implements INetworkObject. -/
structure ScriptingObjectModel where
  id : Nat
  alive : Bool := true
  ty : ScriptingType
  sceneParentId : Option Nat := Option.none
  sceneAncestorIds : List Nat := []
  isNetworkObject : Bool := false
deriving DecidableEq, Repr

/-- Entry of the SpawnQueue: struct SpawnItem.  OwnerClientId and Role are
uninitialized in the source until HasOwnership is set; the model defaults
them. -/
structure SpawnItem where
  object : ScriptingObjectModel
  targets : List Nat := []
  hasOwnership : Bool := false
  hierarchicalOwnership : Bool := false
  ownerClientId : Nat := 0
  role : NetworkObjectRole := NetworkObjectRole.none
deriving DecidableEq, Repr

/-- Connected-peer entry of NetworkManager::Clients (and of the NewClients
list): the client id and whether State == NetworkConnectionState::Connected.
The NetworkConnection handle used for sending is identified with the client
id. -/
structure NetClient where
  clientId : Nat
  connected : Bool := true
deriving DecidableEq, Repr

/-- Read-only engine context of one call: NetworkManager fields
(LocalClientId, IsClient, Frame, Clients, whether State == Offline) plus the
scripting-type table behind Scripting::FindScriptingType keyed by the wire
type name (names modelled as numbers). -/
structure NetworkEnv where
  localClientId : Nat
  isClient : Bool
  frame : Nat := 0
  clients : List NetClient := []
  types : List (Nat × ScriptingType) := []
  offline : Bool := false
deriving Repr

/-- Mutable state guarded by ObjectsLock.  lookupMappingPublished models
whether Scripting::ObjectsLookupIdMapping currently points at
IdsRemappingTable (set by NetworkReplicatorPreUpdate, cleared by Set with a
null pointer). -/
structure ReplicatorState where
  objects : List NetworkReplicatedObject := []
  spawnQueue : List SpawnItem := []
  despawnQueue : List Nat := []
  idsRemappingTable : List (Nat × Nat) := []
  newClients : List NetClient := []
  serializersTable : SerTable := []
  lookupMappingPublished : Bool := false
deriving DecidableEq, Repr

/-- Externally visible effect of a replicator call: a wire message handed to
the transport (targets list the destination client ids, with the single
element serverClientId standing for the plain client-to-server
EndSendMessage), a lifecycle hook invocation, the write performed by a
resolved deserializer into an object, a local object deletion, or an error
log.  Spawn messages elide the prefab payload fields, which no claim
concerns. -/
inductive NetEvent where
  | sendSpawn (objectId parentId ownerClientId : Nat) (targets : List Nat)
  | sendDespawn (objectId : Nat) (targets : List Nat)
  | sendRole (objectId ownerClientId : Nat) (targets : List Nat)
  | sendReplicate (ownerFrame objectId parentId : Nat) (targets : List Nat)
  | applyPayload (objectId payload : Nat)
  | hookSerialize (objectId : Nat)
  | hookDeserialize (objectId : Nat)
  | hookDespawn (objectId : Nat)
  | deleteObject (objectId : Nat)
  | logMissingSerializer (objectId : Nat)
deriving DecidableEq, Repr

/-- Payload of NetworkMessageObjectReplicate: owner frame, object and parent
guids, the type name, and the serialized data (modelled opaquely as one
number). -/
structure ObjectReplicateMsg where
  ownerFrame : Nat
  objectId : Nat
  parentId : Nat
  typeName : Nat
  payload : Nat
deriving DecidableEq, Repr

/-- Payload of NetworkMessageObjectRole. -/
structure ObjectRoleMsg where
  objectId : Nat
  ownerClientId : Nat
deriving DecidableEq, Repr

/-- IdsRemappingTable.TryGet(id, id): translate an id through the remap
table, leaving it unchanged on a miss. -/
def remapGet (tbl : List (Nat × Nat)) (id : Nat) : Nat :=
  match tbl.find? (fun p => p.1 == id) with
  | Option.some p => p.2
  | Option.none => id

/-- IdsRemappingTable.KeyOf(id, out): reverse lookup used when a client
rewrites outbound ids into server-canonical ids; leaves the id unchanged on
a miss. -/
def remapKeyOf (tbl : List (Nat × Nat)) (id : Nat) : Nat :=
  match tbl.find? (fun p => p.2 == id) with
  | Option.some p => p.1
  | Option.none => id

/-- First element satisfying a predicate together with its position. -/
def findWithIdx (p : α → Bool) : List α → Option (Nat × α)
  | [] => Option.none
  | a :: as =>
    if p a then Option.some (0, a)
    else (findWithIdx p as).map (fun q => (q.1 + 1, q.2))

/-- Objects.Find(objectId), returning the position of the record (the model
of the pointer into the hash set). -/
def findObjIdx (objects : List NetworkReplicatedObject) (id : Nat) : Option Nat :=
  (findWithIdx (fun r => r.objectId == id) objects).map (fun q => q.1)

/-- Scripting::FindScriptingType on the wire type name. -/
def findScriptingType (types : List (Nat × ScriptingType)) (name : Nat) : Option ScriptingType :=
  (types.find? (fun p => p.1 == name)).map (fun p => p.2)

/-- Scan predicate of the reconciliation loop in the three-argument
ResolveObject: LastOwnerFrame == 0, ParentId equal to the (already remapped)
parent id, a live object, and a matching type handle, in the evaluation
order of the source condition. -/
def reconcileMatch (parentId : Nat) (ty : ScriptingType) (r : NetworkReplicatedObject) : Bool :=
  r.lastOwnerFrame == 0 && r.parentId == parentId && r.objectAlive &&
    ScriptingType.handle r.objType == ScriptingType.handle ty

/-- Embedding of the one-argument ResolveObject: direct lookup, then one
translation through IdsRemappingTable and a retry. -/
def resolveObjectPlain (st : ReplicatorState) (objectId : Nat) : Option Nat :=
  match findObjIdx st.objects objectId with
  | Option.some i => Option.some i
  | Option.none => findObjIdx st.objects (remapGet st.idsRemappingTable objectId)

/-- Embedding of the three-argument ResolveObject: the plain lookup first;
on a miss, remap the parent id, find the scripting type of the wire name,
and scan Objects for a record matching reconcileMatch; on a hit insert
objectId -> record.ObjectId into IdsRemappingTable and return the record.
Returns the possibly extended state together with the position of the found
record. -/
def resolveObjectFull (env : NetworkEnv) (st : ReplicatorState)
    (objectId parentId typeName : Nat) : ReplicatorState × Option Nat :=
  match resolveObjectPlain st objectId with
  | Option.some i => (st, Option.some i)
  | Option.none =>
    match findScriptingType env.types typeName with
    | Option.none => (st, Option.none)
    | Option.some ty =>
      match findWithIdx (reconcileMatch (remapGet st.idsRemappingTable parentId) ty) st.objects with
      | Option.some q =>
        ({ st with idsRemappingTable := st.idsRemappingTable ++ [(objectId, q.2.objectId)] },
         Option.some q.1)
      | Option.none => (st, Option.none)

/-- BuildCachedTargets(clients): connection handles of all connected
clients. -/
def buildCachedTargetsAll (clients : List NetClient) : List Nat :=
  (clients.filter (fun c => c.connected)).map (fun c => c.clientId)

/-- BuildCachedTargets(clients, excludedClient): all connected clients except
one (exclusion by pointer in the source, by client id here; none excludes
nobody, like a null excludedClient). -/
def buildCachedTargetsExcept (clients : List NetClient) (excluded : Option Nat) : List Nat :=
  (clients.filter (fun c =>
    c.connected &&
      (match excluded with
       | Option.some e => c.clientId != e
       | Option.none => true))).map (fun c => c.clientId)

/-- BuildCachedTargets(clients, clientIds, excludedClientId): connected
clients other than the excluded id, further filtered by the explicit
TargetClientIds list when that list is valid (an empty list models an
invalid, never-allocated DataContainer, meaning broadcast). -/
def buildCachedTargetsIds (clients : List NetClient) (clientIds : List Nat)
    (excludedClientId : Nat) : List Nat :=
  if clientIds.isEmpty then
    (clients.filter (fun c => c.connected && c.clientId != excludedClientId)).map
      (fun c => c.clientId)
  else
    (clients.filter (fun c =>
      c.connected && c.clientId != excludedClientId && clientIds.contains c.clientId)).map
      (fun c => c.clientId)

/-- SendObjectSpawnMessage: on a client the object and parent ids are
rewritten through IdsRemappingTable.KeyOf and the message goes to the server;
on the server it goes to the prepared targets.  The prefab payload fields are
elided. -/
def sendObjectSpawnMessage (env : NetworkEnv) (remap : List (Nat × Nat))
    (item : NetworkReplicatedObject) (targets : List Nat) : NetEvent :=
  if env.isClient then
    NetEvent.sendSpawn (remapKeyOf remap item.objectId) (remapKeyOf remap item.parentId)
      item.ownerClientId [serverClientId]
  else
    NetEvent.sendSpawn item.objectId item.parentId item.ownerClientId targets

/-- SendObjectRoleMessage: a client sends to the server; the server sends to
every connected client except the excluded one. -/
def sendObjectRoleMessage (env : NetworkEnv) (item : NetworkReplicatedObject)
    (excluded : Option Nat) : NetEvent :=
  if env.isClient then
    NetEvent.sendRole item.objectId item.ownerClientId [serverClientId]
  else
    NetEvent.sendRole item.objectId item.ownerClientId
      (buildCachedTargetsExcept env.clients excluded)

/-- Embedding of NetworkReplicator::AddObject.  No-op on a null or offline
call or when the object is already tracked; otherwise the parent defaults to
the scene parent, ownership to the server, and the role to Replicated on a
client and OwnedAuthoritative otherwise, and the record is appended. -/
def addObject (env : NetworkEnv) (st : ReplicatorState) (obj : ScriptingObjectModel)
    (parent : Option Nat) : ReplicatorState :=
  if !obj.alive || env.offline then st
  else if (findObjIdx st.objects obj.id).isSome then st
  else
    let parentId :=
      match parent with
      | Option.some p => p
      | Option.none => obj.sceneParentId.getD 0
    let item : NetworkReplicatedObject :=
      { objectId := obj.id
        parentId := parentId
        ownerClientId := serverClientId
        lastOwnerFrame := 0
        role := if env.isClient then NetworkObjectRole.replicated
                else NetworkObjectRole.ownedAuthoritative
        spawned := false
        invalidTypeWarn := false
        targetClientIds := []
        objectAlive := obj.alive
        objType := obj.ty
        asNetworkObject := obj.isNetworkObject }
    { st with objects := st.objects ++ [item] }

/-- Embedding of NetworkReplicator::RemoveObject.  The source checks
Objects.Find, returns early when the iterator is NOT the end iterator (the
guard the specification flags as inverted), and otherwise logs through the
end iterator and calls Objects.Remove on it; dereferencing and removing the
end iterator changes nothing in the set (the dereference itself is undefined
behavior in C++), so the registry is unchanged on both paths. -/
def removeObject (env : NetworkEnv) (st : ReplicatorState)
    (obj : ScriptingObjectModel) : ReplicatorState :=
  if !obj.alive || env.offline then st
  else
    match findObjIdx st.objects obj.id with
    | Option.some _ => st
    | Option.none => st

/-- Embedding of NetworkReplicator::SpawnObject.  Skips when offline or when
the object already has a record marked Spawned; otherwise appends a spawn
item (with the copied targets list) to the queue, with no duplicate check
against entries already queued this frame. -/
def spawnObject (env : NetworkEnv) (st : ReplicatorState) (obj : ScriptingObjectModel)
    (clientIds : List Nat) : ReplicatorState :=
  if !obj.alive || env.offline then st
  else
    let alreadySpawned :=
      match st.objects.find? (fun r => r.objectId == obj.id) with
      | Option.some r => r.spawned
      | Option.none => false
    if alreadySpawned then st
    else { st with spawnQueue := st.spawnQueue ++ [{ object := obj, targets := clientIds }] }

/-- Ownership update of the first spawn-queue entry holding the object, the
branch SetObjectOwnership takes for an object that is queued but not yet in
the registry. -/
def updateFirstSpawnEntry (queue : List SpawnItem) (objId : Nat) (owner : Nat)
    (role : NetworkObjectRole) (hier : Bool) : List SpawnItem :=
  match queue with
  | [] => []
  | q :: qs =>
    if q.object.id == objId then
      { q with hasOwnership := true, hierarchicalOwnership := hier,
               ownerClientId := owner, role := role } :: qs
    else q :: updateFirstSpawnEntry qs objId owner role hier

/-- Embedding of NetworkReplicator::SetObjectOwnership, identified by object
id.  The fuel bounds the hierarchical recursion depth, which the source
leaves unbounded (it would not terminate on a cyclic ParentId graph); the
child ids are collected before recursing, modelling the iteration over the
set the recursion mutates.  When the local peer owns the object and the
owner changes, the role message is emitted and LastOwnerFrame set to 1;
otherwise only the local role is updated. -/
def setObjectOwnership (env : NetworkEnv) :
    Nat → ReplicatorState → Nat → Nat → NetworkObjectRole → Bool →
    ReplicatorState × List NetEvent
  | 0, st, _, _, _, _ => (st, [])
  | fuel + 1, st, objId, ownerClientId, localRole, hier =>
    match findObjIdx st.objects objId with
    | Option.none =>
      ({ st with spawnQueue := updateFirstSpawnEntry st.spawnQueue objId ownerClientId localRole hier }, [])
    | Option.some i =>
      match st.objects[i]? with
      | Option.none => (st, [])
      | Option.some item =>
        let stepResult :=
          if item.ownerClientId == env.localClientId then
            if item.ownerClientId != ownerClientId then
              let item1 := { item with ownerClientId := ownerClientId,
                                       lastOwnerFrame := 1, role := localRole }
              ({ st with objects := st.objects.set i item1 },
               [sendObjectRoleMessage env item1 Option.none])
            else (st, [])
          else
            ({ st with objects := st.objects.set i { item with role := localRole } }, [])
        if hier then
          let childIds :=
            ((stepResult.1.objects.filter (fun r =>
              r.parentId == item.objectId && r.objectAlive)).map (fun r => r.objectId))
          childIds.foldl (fun acc cid =>
            let next := setObjectOwnership env fuel acc.1 cid ownerClientId localRole hier
            (next.1, acc.2 ++ next.2)) stepResult
        else stepResult

/-- Removal condition of the disconnect handler: a live object, Spawned set,
and the departing client as owner. -/
def disconnectRemoves (clientId : Nat) (r : NetworkReplicatedObject) : Bool :=
  r.objectAlive && r.spawned && r.ownerClientId == clientId

/-- Pass of the records loop of NetworkReplicatorClientDisconnected over the
remaining records: returns the kept records, the ids appended to the despawn
queue, and the despawn hook and deletion effects, in iteration order. -/
def clientDisconnectedGo (clientId : Nat) :
    List NetworkReplicatedObject →
    List NetworkReplicatedObject × List Nat × List NetEvent
  | [] => ([], [], [])
  | r :: rs =>
    if disconnectRemoves clientId r then
      let rest := clientDisconnectedGo clientId rs
      (rest.1, r.objectId :: rest.2.1,
       (if r.asNetworkObject then [NetEvent.hookDespawn r.objectId] else []) ++
         NetEvent.deleteObject r.objectId :: rest.2.2)
    else
      let rest := clientDisconnectedGo clientId rs
      (r :: rest.1, rest.2.1, rest.2.2)

/-- Embedding of NetworkInternal::NetworkReplicatorClientDisconnected: drop
the departing client from NewClients, then for every record with a live
object, Spawned set, and the departing owner: queue its id for despawning,
invoke the despawn hook when present, delete the object locally, and remove
the record. -/
def networkReplicatorClientDisconnected (st : ReplicatorState) (clientId : Nat) :
    ReplicatorState × List NetEvent :=
  let st1 := { st with newClients := st.newClients.filter (fun c => c.clientId != clientId) }
  let scan := clientDisconnectedGo clientId st1.objects
  ({ st1 with objects := scan.1, despawnQueue := st1.despawnQueue ++ scan.2.1 }, scan.2.2)

/-- NetworkReplicatorPreUpdate: publish IdsRemappingTable as the scripting
objects-lookup id mapping. -/
def networkReplicatorPreUpdate (st : ReplicatorState) : ReplicatorState :=
  { st with lookupMappingPublished := true }

/-- Reject check of the inbound handlers: a message from a client that is not
the recorded owner is dropped; a null client (a message received on a client
peer, hence from the server) is never rejected. -/
def senderMismatch (sender : Option Nat) (item : NetworkReplicatedObject) : Bool :=
  match sender with
  | Option.some sid => item.ownerClientId != sid
  | Option.none => false

/-- Embedding of NetworkInternal::OnNetworkMessageObjectReplicate.  Resolve
with parent-and-type reconciliation; drop on a dead back-reference, an
unauthorized sender, a locally authoritative role, or a stale owner frame;
otherwise commit LastOwnerFrame, deserialize through InvokeSerializer
(logging once per record on a missing serializer), and invoke the
post-deserialize hook when the object implements INetworkObject. -/
def onNetworkMessageObjectReplicate (env : NetworkEnv) (st : ReplicatorState)
    (sender : Option Nat) (msg : ObjectReplicateMsg) : ReplicatorState × List NetEvent :=
  match resolveObjectFull env st msg.objectId msg.parentId msg.typeName with
  | (st1, Option.none) => (st1, [])
  | (st1, Option.some i) =>
    match st1.objects[i]? with
    | Option.none => (st1, [])
    | Option.some item =>
      if !item.objectAlive then (st1, [])
      else if senderMismatch sender item then (st1, [])
      else if item.role == NetworkObjectRole.ownedAuthoritative then (st1, [])
      else if msg.ownerFrame ≤ item.lastOwnerFrame then (st1, [])
      else
        let item1 := { item with lastOwnerFrame := msg.ownerFrame }
        let inv := invokeSerializer st1.serializersTable item1.objType false
        let afterInvoke :=
          match inv.2 with
          | Option.some _ => ([NetEvent.applyPayload item.objectId msg.payload], item1)
          | Option.none =>
            if item1.invalidTypeWarn then ([], item1)
            else ([NetEvent.logMissingSerializer item.objectId],
                  { item1 with invalidTypeWarn := true })
        let hookEvs :=
          if item.asNetworkObject then [NetEvent.hookDeserialize item.objectId] else []
        ({ st1 with objects := st1.objects.set i afterInvoke.2, serializersTable := inv.1 },
         afterInvoke.1 ++ hookEvs)

/-- Record update performed by the body of OnNetworkMessageObjectRole:
OwnerClientId from the message and LastOwnerFrame 1, then the automatic
upgrade to OwnedAuthoritative with LastOwnerFrame 0 when the local peer is
the new owner, or the automatic downgrade of an OwnedAuthoritative role to
Replicated. -/
def roleTransition (env : NetworkEnv) (item : NetworkReplicatedObject)
    (newOwner : Nat) : NetworkReplicatedObject :=
  let item1 := { item with ownerClientId := newOwner, lastOwnerFrame := 1 }
  if item1.ownerClientId == env.localClientId then
    { item1 with role := NetworkObjectRole.ownedAuthoritative, lastOwnerFrame := 0 }
  else if item1.role == NetworkObjectRole.ownedAuthoritative then
    { item1 with role := NetworkObjectRole.replicated }
  else item1

/-- Embedding of NetworkInternal::OnNetworkMessageObjectRole.  Resolve via
the plain lookup; drop on an unknown id, a dead back-reference, or an
unauthorized sender; otherwise set OwnerClientId from the message and
LastOwnerFrame to 1, auto-upgrade to OwnedAuthoritative with LastOwnerFrame
0 when the local peer became the owner, downgrade an OwnedAuthoritative role
to Replicated otherwise, and on the server relay the role message to every
connected client except the sender. -/
def onNetworkMessageObjectRole (env : NetworkEnv) (st : ReplicatorState)
    (sender : Option Nat) (msg : ObjectRoleMsg) : ReplicatorState × List NetEvent :=
  match resolveObjectPlain st msg.objectId with
  | Option.none => (st, [])
  | Option.some i =>
    match st.objects[i]? with
    | Option.none => (st, [])
    | Option.some item =>
      if !item.objectAlive then (st, [])
      else if senderMismatch sender item then (st, [])
      else
        let item2 := roleTransition env item msg.ownerClientId
        let evs :=
          if !env.isClient then [sendObjectRoleMessage env item2 sender] else []
        ({ st with objects := st.objects.set i item2 }, evs)

/-- IsParentOf: whether the second object is a transitive scene ancestor of
the first, the walk over SceneObject::GetParent modelled by the precomputed
ancestor id list. -/
def isParentOf (obj parent : ScriptingObjectModel) : Bool :=
  obj.sceneAncestorIds.contains parent.id

/-- One step of the hierarchical-ownership pre-pass of the spawn drain: the
entry at the given position, when it carries hierarchical ownership,
propagates its ownership to every entry without one whose object is a
transitive scene child of its object. -/
def spawnPrePassStep (queue : List SpawnItem) (i : Nat) : List SpawnItem :=
  match queue[i]? with
  | Option.none => queue
  | Option.some e =>
    if e.hasOwnership && e.hierarchicalOwnership then
      queue.map (fun q =>
        if !q.hasOwnership && isParentOf q.object e.object then
          { q with hasOwnership := true, role := e.role, ownerClientId := e.ownerClientId }
        else q)
    else queue

/-- Hierarchical-ownership pre-pass: the outer loop reads each position of
the queue it is mutating, modelled as a fold of the step over the positions
in order. -/
def spawnPrePass (queue : List SpawnItem) : List SpawnItem :=
  (List.range queue.length).foldl spawnPrePassStep queue

/-- Drain loop over the spawn queue (iterating the snapshot taken after the
pre-pass, the way the range-for iterates the array): ensure the object has a
record (AddObject when missing), skip objects the local peer does not own
authoritatively, apply intent ownership (recursing through
SetObjectOwnership when hierarchical, with the given fuel), record the
intent targets, send the spawn message, and set Spawned. -/
def spawnDrainGo (env : NetworkEnv) (fuel : Nat) :
    ReplicatorState → List SpawnItem → ReplicatorState × List NetEvent
  | st, [] => (st, [])
  | st, e :: rest =>
    let obj := e.object
    let st1 :=
      match findObjIdx st.objects obj.id with
      | Option.some _ => st
      | Option.none => addObject env st obj Option.none
    match findObjIdx st1.objects obj.id with
    | Option.none => spawnDrainGo env fuel st1 rest
    | Option.some i =>
      match st1.objects[i]? with
      | Option.none => spawnDrainGo env fuel st1 rest
      | Option.some item =>
        if item.ownerClientId != env.localClientId ||
            item.role != NetworkObjectRole.ownedAuthoritative then
          spawnDrainGo env fuel st1 rest
        else
          let afterOwn :=
            if e.hasOwnership then
              let item1 := { item with role := e.role, ownerClientId := e.ownerClientId }
              let stA := { st1 with objects := st1.objects.set i item1 }
              if e.hierarchicalOwnership then
                setObjectOwnership env fuel stA obj.id e.ownerClientId e.role true
              else (stA, [])
            else (st1, [])
          match afterOwn.1.objects[i]? with
          | Option.none => spawnDrainGo env fuel afterOwn.1 rest
          | Option.some item2 =>
            let item3 :=
              if e.targets.isEmpty then item2 else { item2 with targetClientIds := e.targets }
            let targets := buildCachedTargetsIds env.clients item3.targetClientIds serverClientId
            let ev := sendObjectSpawnMessage env afterOwn.1.idsRemappingTable item3 targets
            let item4 := { item3 with spawned := true }
            let st2 := { afterOwn.1 with objects := afterOwn.1.objects.set i item4 }
            let next := spawnDrainGo env fuel st2 rest
            (next.1, afterOwn.2 ++ ev :: next.2)

/-- Spawn drain of the replication loop: pre-pass, then the drain loop, then
SpawnQueue.Clear. -/
def spawnDrain (env : NetworkEnv) (fuel : Nat) (st : ReplicatorState) :
    ReplicatorState × List NetEvent :=
  let queue := spawnPrePass st.spawnQueue
  let res := spawnDrainGo env fuel { st with spawnQueue := queue } queue
  ({ res.1 with spawnQueue := [] }, res.2)

/-- Despawn drain of the replication loop: one reliable-ordered despawn
message per queued id, a client rewriting the id through the remap table and
sending to the server, the server sending to the cached targets. -/
def despawnDrainEvents (env : NetworkEnv) (remap : List (Nat × Nat))
    (cachedTargets : List Nat) (queue : List Nat) : List NetEvent :=
  queue.map (fun id =>
    if env.isClient then NetEvent.sendDespawn (remapKeyOf remap id) [serverClientId]
    else NetEvent.sendDespawn id cachedTargets)

/-- Per-record state-broadcast loop (step 6): a record with a dead
back-reference is removed; a record is skipped when
Role != OwnedAuthoritative and additionally the peer is a server that is not
the recorded owner (the exact source condition); otherwise the pre-serialize
hook runs, the object is serialized through InvokeSerializer (a missing
serializer logs once per record and skips), and the replicate message is
sent: a client rewrites both ids through the remap table and sends to the
server, the server sends to the connected clients filtered by
TargetClientIds and excluding the owner.  Returns the updated serializers
table, the surviving records, and the events. -/
def step6Go (env : NetworkEnv) (remap : List (Nat × Nat)) :
    SerTable → List NetworkReplicatedObject →
    SerTable × List NetworkReplicatedObject × List NetEvent
  | tbl, [] => (tbl, [], [])
  | tbl, item :: rest =>
    if !item.objectAlive then
      step6Go env remap tbl rest
    else if item.role != NetworkObjectRole.ownedAuthoritative &&
        (!env.isClient && item.ownerClientId != env.localClientId) then
      let next := step6Go env remap tbl rest
      (next.1, item :: next.2.1, next.2.2)
    else
      let preEvs :=
        if item.asNetworkObject then [NetEvent.hookSerialize item.objectId] else []
      let inv := invokeSerializer tbl item.objType true
      match inv.2 with
      | Option.none =>
        let logged :=
          if item.invalidTypeWarn then (([] : List NetEvent), item)
          else ([NetEvent.logMissingSerializer item.objectId],
                { item with invalidTypeWarn := true })
        let next := step6Go env remap inv.1 rest
        (next.1, logged.2 :: next.2.1, preEvs ++ logged.1 ++ next.2.2)
      | Option.some _ =>
        let ev :=
          if env.isClient then
            NetEvent.sendReplicate env.frame (remapKeyOf remap item.objectId)
              (remapKeyOf remap item.parentId) [serverClientId]
          else
            NetEvent.sendReplicate env.frame item.objectId item.parentId
              (buildCachedTargetsIds env.clients item.targetClientIds item.ownerClientId)
        let next := step6Go env remap inv.1 rest
        (next.1, item :: next.2.1, preEvs ++ ev :: next.2.2)

/-- Embedding of NetworkInternal::NetworkReplicatorUpdate.  With an empty
registry the call returns at once (leaving the published lookup mapping
untouched).  Otherwise: late-join catch-up re-sends spawn messages of live
Spawned records to the new clients and clears NewClients; a server with no
connected client unpublishes the mapping and returns; then the despawn
drain, the spawn drain (the fuel bounding the hierarchical-ownership
recursion), the per-record broadcast, and finally the unpublish of the
mapping.  The fatal MISSING_CODE path for client-side custom target lists is
not modelled. -/
def networkReplicatorUpdate (env : NetworkEnv) (fuel : Nat) (st : ReplicatorState) :
    ReplicatorState × List NetEvent :=
  if st.objects.isEmpty then (st, [])
  else
    let lateJoin :=
      if !env.isClient && !st.newClients.isEmpty then
        ({ st with newClients := [] },
         (st.objects.filter (fun r => r.objectAlive && r.spawned)).map (fun r =>
           sendObjectSpawnMessage env st.idsRemappingTable r
             (buildCachedTargetsIds st.newClients r.targetClientIds serverClientId)))
      else (st, ([] : List NetEvent))
    let st1 := lateJoin.1
    let cachedTargets := buildCachedTargetsAll env.clients
    if !env.isClient && cachedTargets.isEmpty then
      ({ st1 with lookupMappingPublished := false }, lateJoin.2)
    else
      let evs2 := despawnDrainEvents env st1.idsRemappingTable cachedTargets st1.despawnQueue
      let st2 := { st1 with despawnQueue := [] }
      let drained := spawnDrain env fuel st2
      let bcast := step6Go env drained.1.idsRemappingTable drained.1.serializersTable
        drained.1.objects
      ({ drained.1 with objects := bcast.2.1, serializersTable := bcast.1,
                        lookupMappingPublished := false },
       lateJoin.2 ++ evs2 ++ drained.2 ++ bcast.2.2)

/-- Resolution step of OnNetworkMessageObjectReplicate, paired with the
record the returned position designates: the record the handler body works
on, or none when resolution failed. -/
def replicateResolve (env : NetworkEnv) (st : ReplicatorState)
    (msg : ObjectReplicateMsg) : Option (Nat × NetworkReplicatedObject) :=
  match resolveObjectFull env st msg.objectId msg.parentId msg.typeName with
  | (st1, Option.some i) =>
    match st1.objects[i]? with
    | Option.some item => Option.some (i, item)
    | Option.none => Option.none
  | (_, Option.none) => Option.none

/-- Drop condition of OnNetworkMessageObjectReplicate: resolution failure
(including a record whose weak back-reference is dead), an unauthorized
sender, a locally authoritative role, or an owner frame that is not newer
than the recorded one. -/
def replicateDropped (env : NetworkEnv) (st : ReplicatorState)
    (sender : Option Nat) (msg : ObjectReplicateMsg) : Bool :=
  match replicateResolve env st msg with
  | Option.none => true
  | Option.some q =>
    !q.2.objectAlive || senderMismatch sender q.2 ||
      q.2.role == NetworkObjectRole.ownedAuthoritative ||
      decide (msg.ownerFrame ≤ q.2.lastOwnerFrame)

/-- Registry record used by the concrete reconciliation scenario of C6: a
locally added object that never received a remote update. -/
def c6Rec : NetworkReplicatedObject :=
  { objectId := 100
    parentId := 5
    ownerClientId := 0
    lastOwnerFrame := 0
    role := NetworkObjectRole.ownedAuthoritative
    objType := ScriptingType.mk 10 Option.none }

/-- State of the concrete C6 scenario. -/
def c6State : ReplicatorState := { objects := [c6Rec] }

/-- Environment of the concrete C6 scenario; type name 50 resolves to the
type of the local record. -/
def c6Env : NetworkEnv :=
  { localClientId := 7
    isClient := true
    types := [(50, ScriptingType.mk 10 Option.none)] }

/-- Record used by the concrete C7 scenario: a client-7-owned object on the
server, locally Replicated. -/
def c7Rec : NetworkReplicatedObject :=
  { objectId := 11
    parentId := 0
    ownerClientId := 7
    role := NetworkObjectRole.replicated
    objType := ScriptingType.mk 10 Option.none }

/-- State of the concrete C7 scenario. -/
def c7State : ReplicatorState := { objects := [c7Rec] }

/-- Server environment of the concrete C7 scenario with clients 7 and 9
connected. -/
def c7Env : NetworkEnv :=
  { localClientId := 0
    isClient := false
    clients := [{ clientId := 7 }, { clientId := 9 }] }

/-- Record used by the concrete C2 scenario: a client-7-owned replicated
object whose type implements INetworkSerializable, with hooks. -/
def c2Rec : NetworkReplicatedObject :=
  { objectId := 1
    parentId := 0
    ownerClientId := 7
    lastOwnerFrame := 10
    role := NetworkObjectRole.replicated
    objType := ScriptingType.mk 10 (Option.some 8)
    asNetworkObject := true }

/-- State of the concrete C2 scenario. -/
def c2State : ReplicatorState := { objects := [c2Rec] }

/-- Server environment of the concrete C2 scenario. -/
def c2Env : NetworkEnv := { localClientId := 0, isClient := false }

/-- Replicate message of the concrete C2 scenario: frame 16 state from
owner 7. -/
def c2Msg : ObjectReplicateMsg :=
  { ownerFrame := 16, objectId := 1, parentId := 0, typeName := 0, payload := 42 }

/-- Record used by the concrete C10 scenario: like the C2 record but of a
type with neither a registered serializer nor the capability interface. -/
def c10Rec : NetworkReplicatedObject :=
  { objectId := 1
    parentId := 0
    ownerClientId := 7
    lastOwnerFrame := 10
    role := NetworkObjectRole.replicated
    objType := ScriptingType.mk 20 Option.none
    asNetworkObject := true }

/-- State of the concrete C10 scenario (empty serializers table). -/
def c10State : ReplicatorState := { objects := [c10Rec] }

/-- Record used by the client-side C1 scenario: a server-owned object the
local client merely replicates (role Replicated), of a type implementing
INetworkSerializable. -/
def c1ClientRec : NetworkReplicatedObject :=
  { objectId := 1
    parentId := 0
    ownerClientId := 0
    lastOwnerFrame := 3
    role := NetworkObjectRole.replicated
    spawned := true
    objType := ScriptingType.mk 10 (Option.some 4) }

/-- State of the client-side C1 scenario. -/
def c1ClientState : ReplicatorState := { objects := [c1ClientRec] }

/-- Client environment of the C1 scenario. -/
def c1ClientEnv : NetworkEnv := { localClientId := 5, isClient := true, frame := 16 }

/-- Record used by the server-side C1 scenario: an object owned by client 7,
locally Replicated on the server (the forwarding-flow case). -/
def c1ServerRec : NetworkReplicatedObject :=
  { objectId := 2
    parentId := 0
    ownerClientId := 7
    lastOwnerFrame := 3
    role := NetworkObjectRole.replicated
    spawned := true
    objType := ScriptingType.mk 10 (Option.some 4) }

/-- State of the server-side C1 scenario. -/
def c1ServerState : ReplicatorState := { objects := [c1ServerRec] }

/-- Server environment of the C1 scenario with client 5 connected. -/
def c1ServerEnv : NetworkEnv :=
  { localClientId := 0, isClient := false, frame := 16, clients := [{ clientId := 5 }] }

/-- Server environment used by the C9 scenarios (no connected clients). -/
def c9Env : NetworkEnv := { localClientId := 0, isClient := false }

/-- Server-owned record of the concrete C3 scenario (keeps the registry
non-empty after the disconnect cleanup). -/
def c3SrvRec : NetworkReplicatedObject :=
  { objectId := 1
    parentId := 0
    ownerClientId := 0
    role := NetworkObjectRole.ownedAuthoritative
    spawned := true
    objType := ScriptingType.mk 20 Option.none }

/-- Record of the concrete C3 scenario owned by the departing client 7. -/
def c3CliRec : NetworkReplicatedObject :=
  { objectId := 2
    parentId := 0
    ownerClientId := 7
    role := NetworkObjectRole.replicated
    spawned := true
    objType := ScriptingType.mk 20 Option.none }

/-- State of the concrete C3 scenario. -/
def c3State : ReplicatorState := { objects := [c3SrvRec, c3CliRec] }

/-- Server environment of the concrete C3 scenario: client 5 remains
connected after client 7 departs. -/
def c3Env : NetworkEnv :=
  { localClientId := 0, isClient := false, frame := 20, clients := [{ clientId := 5 }] }

/-- Whether an event is a spawn message for the given object id (used to
count the outbound spawn messages of one object). -/
def isSpawnFor (oid : Nat) : NetEvent → Bool
  | NetEvent.sendSpawn o _ _ _ => o == oid
  | _ => false

/-- Record the spawn drain adds through AddObject for a live object on the
server (owner = server, role OwnedAuthoritative, parent from the scene
linkage): the shape used to state the drain lemmas. -/
def drainAddedRecord (obj : ScriptingObjectModel) : NetworkReplicatedObject :=
  { objectId := obj.id
    parentId := obj.sceneParentId.getD 0
    ownerClientId := serverClientId
    role := NetworkObjectRole.ownedAuthoritative
    objectAlive := true
    objType := obj.ty
    asNetworkObject := obj.isNetworkObject }

/-- The drain-added record after the spawn message is sent (Spawned set). -/
def drainSpawnedRecord (obj : ScriptingObjectModel) : NetworkReplicatedObject :=
  { objectId := obj.id
    parentId := obj.sceneParentId.getD 0
    ownerClientId := serverClientId
    role := NetworkObjectRole.ownedAuthoritative
    spawned := true
    objectAlive := true
    objType := obj.ty
    asNetworkObject := obj.isNetworkObject }

/-- Spawn message the server-side drain emits for a fresh intent with no
explicit targets. -/
def drainSpawnEvent (env : NetworkEnv) (obj : ScriptingObjectModel) : NetEvent :=
  NetEvent.sendSpawn obj.id (obj.sceneParentId.getD 0) serverClientId
    (buildCachedTargetsIds env.clients [] serverClientId)

/-- Pre-existing server-owned record of the concrete C5 scenario (keeps the
registry non-empty so the update does not return early). -/
def c5Rec : NetworkReplicatedObject :=
  { objectId := 9
    parentId := 0
    ownerClientId := 0
    role := NetworkObjectRole.ownedAuthoritative
    spawned := true
    objType := ScriptingType.mk 20 Option.none }

/-- State of the concrete C5 scenario. -/
def c5State : ReplicatorState := { objects := [c5Rec] }

/-- Server environment of the concrete C5 scenario with client 5
connected. -/
def c5Env : NetworkEnv :=
  { localClientId := 0, isClient := false, frame := 30, clients := [{ clientId := 5 }] }

/-- Object spawned twice in the concrete C5 scenario. -/
def c5Obj : ScriptingObjectModel := { id := 3, ty := ScriptingType.mk 10 (Option.some 4) }

/-- C4: the claim says RemoveObject erases a present record and leaves the
registry unchanged otherwise; the source instead returns early exactly when
the record IS present (the inverted guard the specification flags as a
suspected bug), so the registry is never changed by RemoveObject on any
input. -/
theorem c4_removeObject_never_erases (env : NetworkEnv) (st : ReplicatorState)
    (obj : ScriptingObjectModel) : removeObject env st obj = st := by
  unfold removeObject
  split
  · rfl
  · split <;> rfl

/-- C8: resolution order of InvokeSerializer.  A direct registry hit on the
type handle is used with the table unchanged; otherwise a type advertising
the INetworkSerializable capability gets a synthesized entry forwarding to
the interface thunks with the vtable offset as both tags, cached in the
table and used; otherwise resolution recurses to the base type; and with no
base type left the call reports missing (no invocation) with the table
unchanged. -/
theorem c8_invokeSerializer_resolution (tbl : SerTable) (ty : ScriptingType)
    (serialize : Bool) :
    (∀ s, tableGet tbl (ScriptingType.handle ty) = Option.some s →
      invokeSerializer tbl ty serialize = (tbl, Option.some (serializerPick s serialize))) ∧
    (tableGet tbl (ScriptingType.handle ty) = Option.none →
      (∀ off, ScriptingType.ifaceOffset ty = Option.some off →
        invokeSerializer tbl ty serialize =
          (tbl ++ [(ScriptingType.handle ty,
              { serializeMethod := SerializeFunc.ifaceSerialize
                deserializeMethod := SerializeFunc.ifaceDeserialize
                serializeTag := off
                deserializeTag := off })],
           Option.some (serializerPick
              { serializeMethod := SerializeFunc.ifaceSerialize
                deserializeMethod := SerializeFunc.ifaceDeserialize
                serializeTag := off
                deserializeTag := off } serialize))) ∧
      (ScriptingType.ifaceOffset ty = Option.none →
        (∀ b, ScriptingType.getBaseType ty = Option.some b →
          invokeSerializer tbl ty serialize = invokeSerializer tbl b serialize) ∧
        (ScriptingType.getBaseType ty = Option.none →
          invokeSerializer tbl ty serialize = (tbl, Option.none)))) := by
  refine ⟨?_, ?_⟩
  · intro s hs
    cases ty <;> simp [invokeSerializer, hs]
  · intro hmiss
    refine ⟨?_, ?_⟩
    · intro off hoff
      cases ty <;>
        simp_all [invokeSerializer, ScriptingType.ifaceOffset, ScriptingType.handle]
    · intro hoff
      refine ⟨?_, ?_⟩
      · intro b hb
        cases ty <;>
          simp_all [invokeSerializer, ScriptingType.ifaceOffset, ScriptingType.handle,
            ScriptingType.getBaseType]
      · intro hb
        cases ty <;>
          simp_all [invokeSerializer, ScriptingType.ifaceOffset, ScriptingType.handle,
            ScriptingType.getBaseType]

/-- C8 witness: the resolution at a concrete type with no direct entry, no
capability, and a base type carrying the capability: the call recurses to
the base and synthesizes the forwarding entry there. -/
theorem c8_invokeSerializer_resolution_witness :
    tableGet [] (ScriptingType.handle (ScriptingType.sub 3 Option.none (ScriptingType.mk 2 (Option.some 16)))) = Option.none ∧
    ScriptingType.ifaceOffset (ScriptingType.sub 3 Option.none (ScriptingType.mk 2 (Option.some 16))) = Option.none ∧
    invokeSerializer [] (ScriptingType.sub 3 Option.none (ScriptingType.mk 2 (Option.some 16))) true =
      invokeSerializer [] (ScriptingType.mk 2 (Option.some 16)) true := by
  refine ⟨by decide, by decide, ?_⟩
  exact ((c8_invokeSerializer_resolution []
    (ScriptingType.sub 3 Option.none (ScriptingType.mk 2 (Option.some 16))) true).2
      (by decide)).2 (by decide) |>.1 (ScriptingType.mk 2 (Option.some 16)) (by decide)

/-- C6: behavior of the three-argument ResolveObject.  A plain-lookup hit
(direct, then one remap translation and retry) is returned with the state
unchanged; on a miss, when the wire type name resolves, the registry is
scanned for the first record with the remapped parent id, a live object of
that type, and LastOwnerFrame zero, the entry objectId -> record.ObjectId is
inserted into the remap table, and that record is returned; with no matching
record (or an unknown type name) nothing is returned and the state is
unchanged. -/
theorem c6_resolveObjectFull_reconciliation (env : NetworkEnv) (st : ReplicatorState)
    (objectId parentId typeName : Nat) :
    (∀ i, resolveObjectPlain st objectId = Option.some i →
      resolveObjectFull env st objectId parentId typeName = (st, Option.some i)) ∧
    (resolveObjectPlain st objectId = Option.none →
      (findScriptingType env.types typeName = Option.none →
        resolveObjectFull env st objectId parentId typeName = (st, Option.none)) ∧
      (∀ ty, findScriptingType env.types typeName = Option.some ty →
        (∀ q, findWithIdx
              (reconcileMatch (remapGet st.idsRemappingTable parentId) ty) st.objects
            = Option.some q →
          resolveObjectFull env st objectId parentId typeName =
            ({ st with idsRemappingTable :=
                st.idsRemappingTable ++ [(objectId, q.2.objectId)] },
             Option.some q.1)) ∧
        (findWithIdx
              (reconcileMatch (remapGet st.idsRemappingTable parentId) ty) st.objects
            = Option.none →
          resolveObjectFull env st objectId parentId typeName = (st, Option.none)))) := by
  refine ⟨?_, ?_⟩
  · intro i hi
    simp [resolveObjectFull, hi]
  · intro hmiss
    refine ⟨?_, ?_⟩
    · intro hty
      simp [resolveObjectFull, hmiss, hty]
    · intro ty hty
      refine ⟨?_, ?_⟩
      · intro q hq
        simp [resolveObjectFull, hmiss, hty, hq]
      · intro hq
        simp [resolveObjectFull, hmiss, hty, hq]

/-- C6 witness: resolving an unknown remote id with the matching parent and
type reconciles onto the local record and inserts the remap entry. -/
theorem c6_resolveObjectFull_reconciliation_witness :
    resolveObjectFull c6Env c6State 200 5 50 =
      ({ c6State with idsRemappingTable :=
          c6State.idsRemappingTable ++ [(200, c6Rec.objectId)] },
       Option.some 0) := by
  have h := ((c6_resolveObjectFull_reconciliation c6Env c6State 200 5 50).2
      (by decide)).2 (ScriptingType.mk 10 Option.none) (by decide)
  exact h.1 (0, c6Rec) (by decide)

/-- Helper: the role transition never changes the object id. -/
theorem roleTransition_objectId (env : NetworkEnv) (item : NetworkReplicatedObject)
    (o : Nat) : (roleTransition env item o).objectId = item.objectId := by
  simp only [roleTransition]
  split
  · rfl
  · split <;> rfl

/-- Helper: the role transition always installs the new owner. -/
theorem roleTransition_ownerClientId (env : NetworkEnv)
    (item : NetworkReplicatedObject) (o : Nat) :
    (roleTransition env item o).ownerClientId = o := by
  simp only [roleTransition]
  split
  · rfl
  · split <;> rfl

/-- C7: on a role message for a resolvable object with a live
back-reference, an unauthorized sender changes nothing and emits nothing;
otherwise the owner is set from the message, the role upgrades to
OwnedAuthoritative with LastOwnerFrame 0 when the local peer became the
owner and an OwnedAuthoritative role downgrades to Replicated otherwise,
and a server relays the role message to every connected client except the
sender while a client relays nothing. -/
theorem c7_onNetworkMessageObjectRole (env : NetworkEnv) (st : ReplicatorState)
    (sender : Option Nat) (msg : ObjectRoleMsg) (i : Nat)
    (item : NetworkReplicatedObject)
    (hres : resolveObjectPlain st msg.objectId = Option.some i)
    (hget : st.objects[i]? = Option.some item)
    (halive : item.objectAlive = true) :
    (senderMismatch sender item = true →
      onNetworkMessageObjectRole env st sender msg = (st, [])) ∧
    (senderMismatch sender item = false →
      onNetworkMessageObjectRole env st sender msg =
        ({ st with objects := st.objects.set i (roleTransition env item msg.ownerClientId) },
         if env.isClient then []
         else [NetEvent.sendRole item.objectId msg.ownerClientId
                 (buildCachedTargetsExcept env.clients sender)]) ∧
      (roleTransition env item msg.ownerClientId).ownerClientId = msg.ownerClientId ∧
      (msg.ownerClientId = env.localClientId →
        (roleTransition env item msg.ownerClientId).role
            = NetworkObjectRole.ownedAuthoritative ∧
        (roleTransition env item msg.ownerClientId).lastOwnerFrame = 0) ∧
      (msg.ownerClientId ≠ env.localClientId →
        item.role = NetworkObjectRole.ownedAuthoritative →
        (roleTransition env item msg.ownerClientId).role = NetworkObjectRole.replicated) ∧
      (msg.ownerClientId ≠ env.localClientId →
        item.role ≠ NetworkObjectRole.ownedAuthoritative →
        (roleTransition env item msg.ownerClientId).role = item.role)) := by
  have hget2 : st.objects[i]? = Option.some item := by simpa using hget
  constructor
  · intro hmis
    simp [onNetworkMessageObjectRole, hres, hget2, halive, hmis]
  · intro hmis
    refine ⟨?_, ?_, ?_, ?_, ?_⟩
    · cases hic : env.isClient <;>
        simp [onNetworkMessageObjectRole, hres, hget2, halive, hmis, hic,
          sendObjectRoleMessage, roleTransition_objectId, roleTransition_ownerClientId]
    · exact roleTransition_ownerClientId env item msg.ownerClientId
    · intro h1
      simp [roleTransition, h1]
    · intro h1 h2
      simp [roleTransition, h1, h2]
    · intro h1 h2
      simp [roleTransition, h1, h2]

/-- Helper: the three-argument resolve touches only the remap table, never
the registry records or the serializers table. -/
theorem resolveObjectFull_preserves (env : NetworkEnv) (st : ReplicatorState)
    (a b c : Nat) :
    (resolveObjectFull env st a b c).1.objects = st.objects ∧
    (resolveObjectFull env st a b c).1.serializersTable = st.serializersTable := by
  unfold resolveObjectFull
  split
  · exact ⟨rfl, rfl⟩
  · split
    · exact ⟨rfl, rfl⟩
    · split <;> exact ⟨rfl, rfl⟩

/-- C2: an inbound replicate message is dropped, with the registry records
unchanged and no effect emitted, exactly on the conditions of
replicateDropped (resolution failure including a dead back-reference, an
unauthorized sender, a locally authoritative role, or a stale owner frame);
an accepted message had msg.ownerFrame strictly above the recorded
LastOwnerFrame, commits LastOwnerFrame to msg.ownerFrame on the resolved
record, applies the payload through the resolved deserializer, and invokes
the post-deserialize hook when the object exposes it. -/
theorem c2_onNetworkMessageObjectReplicate (env : NetworkEnv) (st : ReplicatorState)
    (sender : Option Nat) (msg : ObjectReplicateMsg) :
    (replicateDropped env st sender msg = true →
      (onNetworkMessageObjectReplicate env st sender msg).1.objects = st.objects ∧
      (onNetworkMessageObjectReplicate env st sender msg).2 = []) ∧
    (replicateDropped env st sender msg = false →
      ∀ q, replicateResolve env st msg = Option.some q →
        q.2.lastOwnerFrame < msg.ownerFrame ∧
        (∃ item2,
          (onNetworkMessageObjectReplicate env st sender msg).1.objects
              = st.objects.set q.1 item2 ∧
          item2.objectId = q.2.objectId ∧
          item2.lastOwnerFrame = msg.ownerFrame) ∧
        (q.2.asNetworkObject = true →
          NetEvent.hookDeserialize q.2.objectId
            ∈ (onNetworkMessageObjectReplicate env st sender msg).2) ∧
        ((invokeSerializer st.serializersTable q.2.objType false).2.isSome = true →
          NetEvent.applyPayload q.2.objectId msg.payload
            ∈ (onNetworkMessageObjectReplicate env st sender msg).2)) := by
  rcases hrf : resolveObjectFull env st msg.objectId msg.parentId msg.typeName with ⟨st1, r⟩
  have hpres := resolveObjectFull_preserves env st msg.objectId msg.parentId msg.typeName
  rw [hrf] at hpres
  have hobj : st1.objects = st.objects := hpres.1
  have htbl : st1.serializersTable = st.serializersTable := hpres.2
  cases r with
  | none =>
    have hresn : replicateResolve env st msg = Option.none := by
      simp [replicateResolve, hrf]
    constructor
    · intro _
      simp [onNetworkMessageObjectReplicate, hrf, hobj]
    · intro _ q hq
      rw [hresn] at hq
      exact absurd hq (by simp)
  | some i =>
    cases hitem : st1.objects[i]? with
    | none =>
      rw [hobj] at hitem
      have hresn : replicateResolve env st msg = Option.none := by
        simp [replicateResolve, hrf, hobj, hitem]
      constructor
      · intro _
        simp [onNetworkMessageObjectReplicate, hrf, hitem, hobj]
      · intro _ q hq
        rw [hresn] at hq
        exact absurd hq (by simp)
    | some item =>
      rw [hobj] at hitem
      have hresq : replicateResolve env st msg = Option.some (i, item) := by
        simp [replicateResolve, hrf, hobj, hitem]
      by_cases ha : item.objectAlive = true
      · by_cases hmis : senderMismatch sender item = true
        · have hdrop : replicateDropped env st sender msg = true := by
            simp [replicateDropped, hresq, hmis]
          constructor
          · intro _
            simp [onNetworkMessageObjectReplicate, hrf, hitem, ha, hmis, hobj]
          · intro hfalse
            rw [hdrop] at hfalse
            exact absurd hfalse (by simp)
        · by_cases hrole : item.role = NetworkObjectRole.ownedAuthoritative
          · have hdrop : replicateDropped env st sender msg = true := by
              simp [replicateDropped, hresq, hrole]
            constructor
            · intro _
              simp [onNetworkMessageObjectReplicate, hrf, hitem, ha, hmis, hrole, hobj]
            · intro hfalse
              rw [hdrop] at hfalse
              exact absurd hfalse (by simp)
          · by_cases hfr : msg.ownerFrame ≤ item.lastOwnerFrame
            · have hdrop : replicateDropped env st sender msg = true := by
                simp [replicateDropped, hresq, hfr]
              constructor
              · intro _
                simp [onNetworkMessageObjectReplicate, hrf, hitem, ha, hmis, hrole, hfr, hobj]
              · intro hfalse
                rw [hdrop] at hfalse
                exact absurd hfalse (by simp)
            · have hdrop : replicateDropped env st sender msg = false := by
                simp [replicateDropped, hresq, ha, hmis, hrole, hfr]
              constructor
              · intro htrue
                rw [hdrop] at htrue
                exact absurd htrue (by simp)
              · intro _ q hq
                rw [hresq] at hq
                injection hq with hq2
                subst hq2
                refine ⟨Nat.lt_of_not_le hfr, ?_, ?_, ?_⟩
                · cases hinv : (invokeSerializer st1.serializersTable item.objType false).2 with
                  | some p =>
                    refine ⟨{ item with lastOwnerFrame := msg.ownerFrame }, ?_, by simp, by simp⟩
                    simp [onNetworkMessageObjectReplicate, hrf, hitem, ha, hmis, hrole, hfr,
                      hinv, hobj]
                  | none =>
                    by_cases hwarn : item.invalidTypeWarn = true
                    · refine ⟨{ item with lastOwnerFrame := msg.ownerFrame }, ?_, by simp, by simp⟩
                      simp [onNetworkMessageObjectReplicate, hrf, hitem, ha, hmis, hrole, hfr,
                        hinv, hwarn, hobj]
                    · refine ⟨{ item with lastOwnerFrame := msg.ownerFrame, invalidTypeWarn := true }, ?_, by simp, by simp⟩
                      simp [onNetworkMessageObjectReplicate, hrf, hitem, ha, hmis, hrole, hfr,
                        hinv, hwarn, hobj]
                · intro hnet
                  have hnet2 : item.asNetworkObject = true := hnet
                  simp [onNetworkMessageObjectReplicate, hrf, hobj, hitem, ha, hmis, hrole, hfr,
                    hnet2]
                · intro hsome
                  rw [← htbl] at hsome
                  cases hinv : (invokeSerializer st1.serializersTable item.objType false).2 with
                  | some p =>
                    simp [onNetworkMessageObjectReplicate, hrf, hobj, hitem, ha, hmis, hrole, hfr,
                      hinv]
                  | none =>
                    rw [hinv] at hsome
                    exact absurd hsome (by simp)
      · have hdrop : replicateDropped env st sender msg = true := by
          simp [replicateDropped, hresq, ha]
        constructor
        · intro _
          simp [onNetworkMessageObjectReplicate, hrf, hitem, ha, hobj]
        · intro hfalse
          rw [hdrop] at hfalse
          exact absurd hfalse (by simp)

/-- C7 witness: owner 7 hands the object to client 9; the server applies the
transition and relays the role message to client 9 only (the sender 7 is
excluded). -/
theorem c7_onNetworkMessageObjectRole_witness :
    onNetworkMessageObjectRole c7Env c7State (Option.some 7)
        { objectId := 11, ownerClientId := 9 } =
      ({ c7State with objects := c7State.objects.set 0 (roleTransition c7Env c7Rec 9) },
       if c7Env.isClient then []
       else [NetEvent.sendRole c7Rec.objectId 9
               (buildCachedTargetsExcept c7Env.clients (Option.some 7))]) := by
  exact ((c7_onNetworkMessageObjectRole c7Env c7State (Option.some 7)
      { objectId := 11, ownerClientId := 9 } 0 c7Rec (by decide) (by decide)
      (by decide)).2 (by decide)).1

/-- C2 witness: a concrete accepted replicate message (frame 16 over
recorded frame 10 from the recorded owner 7) commits the frame, applies the
payload, and invokes the hook. -/
theorem c2_onNetworkMessageObjectReplicate_witness :
    replicateDropped c2Env c2State (Option.some 7) c2Msg = false ∧
    c2Rec.lastOwnerFrame < c2Msg.ownerFrame ∧
    (∃ item2,
      (onNetworkMessageObjectReplicate c2Env c2State (Option.some 7) c2Msg).1.objects
          = c2State.objects.set 0 item2 ∧
      item2.objectId = c2Rec.objectId ∧
      item2.lastOwnerFrame = c2Msg.ownerFrame) ∧
    NetEvent.hookDeserialize c2Rec.objectId
        ∈ (onNetworkMessageObjectReplicate c2Env c2State (Option.some 7) c2Msg).2 ∧
    NetEvent.applyPayload c2Rec.objectId c2Msg.payload
        ∈ (onNetworkMessageObjectReplicate c2Env c2State (Option.some 7) c2Msg).2 := by
  have h := (c2_onNetworkMessageObjectReplicate c2Env c2State (Option.some 7) c2Msg).2
      (by decide) (0, c2Rec) (by decide)
  exact ⟨by decide, h.1, h.2.1, h.2.2.1 (by decide), h.2.2.2 (by decide)⟩

/-- C10: a replicate message that passes the owner, role, and frame checks
but whose object type resolves no deserializer still commits LastOwnerFrame
to the message frame and still invokes the post-deserialize hook; only the
payload application is skipped (the handler logs and consumes the
message). -/
theorem c10_replicate_commits_without_serializer (env : NetworkEnv)
    (st st1 : ReplicatorState) (sender : Option Nat) (msg : ObjectReplicateMsg)
    (i : Nat) (item : NetworkReplicatedObject)
    (hrf : resolveObjectFull env st msg.objectId msg.parentId msg.typeName
        = (st1, Option.some i))
    (hitem : st1.objects[i]? = Option.some item)
    (ha : item.objectAlive = true)
    (hmis : senderMismatch sender item = false)
    (hrole : item.role ≠ NetworkObjectRole.ownedAuthoritative)
    (hfr : item.lastOwnerFrame < msg.ownerFrame)
    (hmissing : (invokeSerializer st1.serializersTable item.objType false).2 = Option.none)
    (hhook : item.asNetworkObject = true) :
    (∃ item2,
      (onNetworkMessageObjectReplicate env st sender msg).1.objects
          = st.objects.set i item2 ∧
      item2.lastOwnerFrame = msg.ownerFrame) ∧
    NetEvent.hookDeserialize item.objectId
        ∈ (onNetworkMessageObjectReplicate env st sender msg).2 ∧
    NetEvent.applyPayload item.objectId msg.payload
        ∉ (onNetworkMessageObjectReplicate env st sender msg).2 := by
  have hpres := resolveObjectFull_preserves env st msg.objectId msg.parentId msg.typeName
  rw [hrf] at hpres
  have hobj : st1.objects = st.objects := hpres.1
  rw [hobj] at hitem
  have hfr2 : ¬msg.ownerFrame ≤ item.lastOwnerFrame := Nat.not_le_of_lt hfr
  refine ⟨?_, ?_, ?_⟩
  · by_cases hwarn : item.invalidTypeWarn = true
    · refine ⟨{ item with lastOwnerFrame := msg.ownerFrame }, ?_, by simp⟩
      simp [onNetworkMessageObjectReplicate, hrf, hobj, hitem, ha, hmis, hrole, hfr2,
        hmissing, hwarn]
    · refine ⟨{ item with lastOwnerFrame := msg.ownerFrame, invalidTypeWarn := true }, ?_, by simp⟩
      simp [onNetworkMessageObjectReplicate, hrf, hobj, hitem, ha, hmis, hrole, hfr2,
        hmissing, hwarn]
  · simp [onNetworkMessageObjectReplicate, hrf, hobj, hitem, ha, hmis, hrole, hfr2,
      hmissing, hhook]
  · by_cases hwarn : item.invalidTypeWarn = true <;>
      simp [onNetworkMessageObjectReplicate, hrf, hobj, hitem, ha, hmis, hrole, hfr2,
        hmissing, hwarn]

/-- C10 witness: the concrete scenario with no serializer for the type:
frame committed, hook invoked, payload not applied. -/
theorem c10_replicate_commits_without_serializer_witness :
    (∃ item2,
      (onNetworkMessageObjectReplicate c2Env c10State (Option.some 7) c2Msg).1.objects
          = c10State.objects.set 0 item2 ∧
      item2.lastOwnerFrame = c2Msg.ownerFrame) ∧
    NetEvent.hookDeserialize c10Rec.objectId
        ∈ (onNetworkMessageObjectReplicate c2Env c10State (Option.some 7) c2Msg).2 ∧
    NetEvent.applyPayload c10Rec.objectId c2Msg.payload
        ∉ (onNetworkMessageObjectReplicate c2Env c10State (Option.some 7) c2Msg).2 := by
  exact c10_replicate_commits_without_serializer c2Env c10State c10State (Option.some 7)
    c2Msg 0 c10Rec (by decide) (by decide) (by decide) (by decide) (by decide) (by decide)
    (by decide) (by decide)

/-- C1: the state-broadcast skip condition of the replication loop is the
opposite of the claim (and of the comment above it in the source).  At the
concrete inputs: a client peer emits a replicate message for a record it
holds with role Replicated and does not own (the claim says clients send
only their OwnedAuthoritative objects), and a server peer emits nothing for
a record owned by another client (the claim says the server forwards the
state of client-owned objects to all peers). -/
theorem c1_broadcast_skip_condition_inverted :
    (networkReplicatorUpdate c1ClientEnv 1 c1ClientState).2
        = [NetEvent.sendReplicate 16 1 0 [0]] ∧
    (networkReplicatorUpdate c1ServerEnv 1 c1ServerState).2 = [] := by
  decide

/-- C9 counterexample: with an empty registry the update returns on its
first line without clearing the published objects-lookup mapping, so the
mapping set by NetworkReplicatorPreUpdate survives the frame, contradicting
the claim that every return path unpublishes it. -/
theorem c9_counterexample_empty_registry :
    (networkReplicatorUpdate c9Env 1
        (networkReplicatorPreUpdate {})).1.lookupMappingPublished = true := by
  decide

/-- C9 amended: on every return path taken with a NON-empty registry (the
no-clients server early exit and the normal end of the loop) the update
clears the objects-lookup mapping; only the empty-registry early return
leaves it published. -/
theorem c9_update_unpublishes_mapping (env : NetworkEnv) (fuel : Nat)
    (st : ReplicatorState) (h : st.objects ≠ []) :
    (networkReplicatorUpdate env fuel st).1.lookupMappingPublished = false := by
  have h2 : st.objects.isEmpty = false := by
    simpa [List.isEmpty_iff] using h
  unfold networkReplicatorUpdate
  rw [h2]
  simp only [Bool.false_eq_true, if_false]
  split <;> rfl

/-- C9 witness: a concrete non-empty state with the mapping published comes
out of the update with the mapping cleared. -/
theorem c9_update_unpublishes_mapping_witness :
    (networkReplicatorUpdate c9Env 1
        { objects := [c1ServerRec], lookupMappingPublished := true }).1.lookupMappingPublished
      = false :=
  c9_update_unpublishes_mapping c9Env 1
    { objects := [c1ServerRec], lookupMappingPublished := true } (by decide)

/-- Helper: the record scan of the disconnect handler keeps exactly the
records that are not (live, spawned, and owned by the departing client),
queues the ids of the removed ones in order, and emits a deletion for each
removed record. -/
theorem clientDisconnectedGo_spec (c : Nat) (objs : List NetworkReplicatedObject) :
    (clientDisconnectedGo c objs).1
        = objs.filter (fun r => !disconnectRemoves c r) ∧
    (clientDisconnectedGo c objs).2.1
        = (objs.filter (disconnectRemoves c)).map (fun r => r.objectId) ∧
    ∀ r ∈ objs, disconnectRemoves c r = true →
      NetEvent.deleteObject r.objectId ∈ (clientDisconnectedGo c objs).2.2 := by
  induction objs with
  | nil => simp [clientDisconnectedGo]
  | cons r rs ih =>
    by_cases hc : disconnectRemoves c r = true
    · refine ⟨?_, ?_, ?_⟩
      · simp [clientDisconnectedGo, hc, ih.1]
      · simp [clientDisconnectedGo, hc, ih.2.1]
      · intro x hx hcx
        rcases List.mem_cons.mp hx with h | hxs
        · subst h
          simp [clientDisconnectedGo, hc]
        · have hm := ih.2.2 x hxs hcx
          simp [clientDisconnectedGo, hc, hm]
    · refine ⟨?_, ?_, ?_⟩
      · simp [clientDisconnectedGo, hc, ih.1]
      · simp [clientDisconnectedGo, hc, ih.2.1]
      · intro x hx hcx
        rcases List.mem_cons.mp hx with h | hxs
        · subst h
          exact absurd hcx hc
        · have hm := ih.2.2 x hxs hcx
          simp [clientDisconnectedGo, hc, hm]

/-- Helper: a server-side update on a non-empty registry with at least one
connected client emits one despawn message, addressed to all connected
clients, for every id sitting in the despawn queue. -/
theorem update_emits_queued_despawns (env : NetworkEnv) (fuel : Nat)
    (st : ReplicatorState) (hc : env.isClient = false) (hobj : st.objects ≠ [])
    (ht : buildCachedTargetsAll env.clients ≠ []) :
    ∀ id ∈ st.despawnQueue,
      NetEvent.sendDespawn id (buildCachedTargetsAll env.clients)
        ∈ (networkReplicatorUpdate env fuel st).2 := by
  intro id hid
  have h2 : st.objects.isEmpty = false := by simpa [List.isEmpty_iff] using hobj
  have h3 : (buildCachedTargetsAll env.clients).isEmpty = false := by
    simpa [List.isEmpty_iff] using ht
  unfold networkReplicatorUpdate
  rw [h2]
  simp only [Bool.false_eq_true, if_false]
  cases hne : st.newClients.isEmpty <;>
    simp [hc, h3, hne, despawnDrainEvents, List.mem_append, hid]

/-- C3 counterexample: client 7 owns a spawned object (id 2); after the
disconnect handler runs on the server, the next replication update DOES emit
an outbound despawn message for id 2 to the remaining client 5,
contradicting the claim that no despawn message is emitted as a result of
the removal. -/
theorem c3_counterexample_despawn_is_emitted :
    (networkReplicatorClientDisconnected c3State 7).1.despawnQueue = [2] ∧
    NetEvent.sendDespawn 2 [5]
      ∈ (networkReplicatorUpdate c3Env 1
          (networkReplicatorClientDisconnected c3State 7).1).2 := by
  decide

/-- C3 amended: the disconnect handler removes and locally destroys exactly
the records with a live object, Spawned set, and the departing owner (not
every record of that owner), and queues their ids for despawning; the next
server-side update that reaches the despawn drain (non-empty registry, at
least one connected client) then DOES emit a despawn message for each queued
id to the remaining peers. -/
theorem c3_disconnect_despawn_behavior (st : ReplicatorState) (clientId : Nat)
    (env : NetworkEnv) (fuel : Nat) :
    (networkReplicatorClientDisconnected st clientId).1.objects
        = st.objects.filter (fun r => !disconnectRemoves clientId r) ∧
    (networkReplicatorClientDisconnected st clientId).1.despawnQueue
        = st.despawnQueue
            ++ (st.objects.filter (disconnectRemoves clientId)).map (fun r => r.objectId) ∧
    (∀ r ∈ st.objects, disconnectRemoves clientId r = true →
      NetEvent.deleteObject r.objectId
        ∈ (networkReplicatorClientDisconnected st clientId).2) ∧
    (env.isClient = false →
      (networkReplicatorClientDisconnected st clientId).1.objects ≠ [] →
      buildCachedTargetsAll env.clients ≠ [] →
      ∀ id ∈ (networkReplicatorClientDisconnected st clientId).1.despawnQueue,
        NetEvent.sendDespawn id (buildCachedTargetsAll env.clients)
          ∈ (networkReplicatorUpdate env fuel
              (networkReplicatorClientDisconnected st clientId).1).2) := by
  have hgo := clientDisconnectedGo_spec clientId st.objects
  refine ⟨?_, ?_, ?_, ?_⟩
  · simpa [networkReplicatorClientDisconnected] using hgo.1
  · simpa [networkReplicatorClientDisconnected] using hgo.2.1
  · intro r hr hcr
    have := hgo.2.2 r hr hcr
    simpa [networkReplicatorClientDisconnected] using this
  · intro hc hobj ht
    exact update_emits_queued_despawns env fuel
      (networkReplicatorClientDisconnected st clientId).1 hc hobj ht

/-- C3 amended witness: the concrete scenario, instantiating the emission
part of the amended claim at the queued id 2. -/
theorem c3_disconnect_despawn_behavior_witness :
    NetEvent.sendDespawn 2 [5]
      ∈ (networkReplicatorUpdate c3Env 1
          (networkReplicatorClientDisconnected c3State 7).1).2 := by
  refine (c3_disconnect_despawn_behavior c3State 7 c3Env 1).2.2.2 (by decide) (by decide)
    (by decide) 2 ?_
  decide

/-- Helper: a scan over elements on which the predicate fails finds
nothing. -/
theorem findWithIdx_eq_none {α : Type} {p : α → Bool} {xs : List α}
    (h : ∀ x ∈ xs, p x = false) : findWithIdx p xs = Option.none := by
  induction xs with
  | nil => rfl
  | cons a as ih =>
    simp [findWithIdx, h a (by simp), ih (fun x hx => h x (by simp [hx]))]

/-- Helper: the scan finds the head of the suffix when the prefix fails the
predicate and that head satisfies it. -/
theorem findWithIdx_append_cons {α : Type} {p : α → Bool} (xs : List α) (a : α)
    (ys : List α) (hxs : ∀ x ∈ xs, p x = false) (ha : p a = true) :
    findWithIdx p (xs ++ a :: ys) = Option.some (xs.length, a) := by
  induction xs with
  | nil => simp [findWithIdx, ha]
  | cons b bs ih =>
    simp [findWithIdx, hxs b (by simp), ih (fun x hx => hxs x (by simp [hx]))]

/-- Helper: Objects.Find misses when no record carries the id. -/
theorem findObjIdx_eq_none (objects : List NetworkReplicatedObject) (id : Nat)
    (h : ∀ r ∈ objects, (r.objectId == id) = false) :
    findObjIdx objects id = Option.none := by
  simp [findObjIdx, findWithIdx_eq_none h]

/-- Helper: Objects.Find locates an appended record when no earlier record
carries the id. -/
theorem findObjIdx_append_cons (xs : List NetworkReplicatedObject)
    (r : NetworkReplicatedObject) (ys : List NetworkReplicatedObject) (id : Nat)
    (hxs : ∀ x ∈ xs, (x.objectId == id) = false) (hr : (r.objectId == id) = true) :
    findObjIdx (xs ++ r :: ys) id = Option.some xs.length := by
  simp [findObjIdx, findWithIdx_append_cons xs r ys hxs hr]

/-- Helper: one pre-pass step over a queue without ownership intents changes
nothing. -/
theorem spawnPrePassStep_no_ownership (queue : List SpawnItem) (i : Nat)
    (h : ∀ q ∈ queue, q.hasOwnership = false) : spawnPrePassStep queue i = queue := by
  unfold spawnPrePassStep
  cases hq : queue[i]? with
  | none => rfl
  | some e => simp [h e (List.getElem?_mem hq)]

/-- Helper: the hierarchical-ownership pre-pass leaves a queue without
ownership intents unchanged. -/
theorem spawnPrePass_no_ownership (queue : List SpawnItem)
    (h : ∀ q ∈ queue, q.hasOwnership = false) : spawnPrePass queue = queue := by
  unfold spawnPrePass
  have hgen : ∀ l : List Nat, l.foldl spawnPrePassStep queue = queue := by
    intro l
    induction l with
    | nil => rfl
    | cons x xs ih => simp [List.foldl_cons, spawnPrePassStep_no_ownership queue x h, ih]
  exact hgen _

/-- Helper: SpawnObject on a live object with no record (hence no record
marked Spawned) enqueues one intent and changes nothing else. -/
theorem spawnObject_enqueues (env : NetworkEnv) (st : ReplicatorState)
    (obj : ScriptingObjectModel) (clientIds : List Nat)
    (halive : obj.alive = true) (hoff : env.offline = false)
    (habsent : ∀ r ∈ st.objects, (r.objectId == obj.id) = false) :
    spawnObject env st obj clientIds
      = { st with spawnQueue := st.spawnQueue ++ [{ object := obj, targets := clientIds }] } := by
  have hfind : st.objects.find? (fun r => r.objectId == obj.id) = Option.none :=
    List.find?_eq_none.mpr (fun x hx => by simp [habsent x hx])
  simp [spawnObject, halive, hoff, hfind]

/-- C5 counterexample: spawning the same fresh object twice in one frame on
the server enqueues two intents, and the replication loop emits TWO spawn
messages for it (the claim says exactly one), while the registry holds one
record for it. -/
theorem c5_counterexample_double_spawn_message :
    ((networkReplicatorUpdate c5Env 1
        (spawnObject c5Env (spawnObject c5Env c5State c5Obj []) c5Obj [])).2.countP
          (isSpawnFor 3)) = 2 ∧
    ((networkReplicatorUpdate c5Env 1
        (spawnObject c5Env (spawnObject c5Env c5State c5Obj []) c5Obj [])).1.objects.countP
          (fun r => r.objectId == 3)) = 1 := by
  decide

/-- Helper: the per-record broadcast loop never emits spawn messages. -/
theorem step6Go_events_no_spawn (env : NetworkEnv) (remap : List (Nat × Nat)) :
    ∀ (objs : List NetworkReplicatedObject) (tbl : SerTable) (oid : Nat),
      ((step6Go env remap tbl objs).2.2.countP (isSpawnFor oid)) = 0 := by
  intro objs
  induction objs with
  | nil =>
    intro tbl oid
    simp [step6Go]
  | cons item rest ih =>
    intro tbl oid
    unfold step6Go
    split
    · exact ih tbl oid
    · split
      · simpa using ih tbl oid
      · cases hinv : (invokeSerializer tbl item.objType true).2 with
        | none =>
          by_cases hwarn : item.invalidTypeWarn = true <;>
            simp [hinv, hwarn, List.countP_append, List.countP_cons, isSpawnFor, ih,
              apply_ite (List.countP (isSpawnFor oid))]
        | some p =>
          cases hic : env.isClient <;>
            simp [hinv, hic, List.countP_append, List.countP_cons, isSpawnFor, ih,
              apply_ite (List.countP (isSpawnFor oid))]

/-- Helper: the broadcast loop keeps exactly the records with a live
back-reference, possibly updating their log-once flag but never their object
id, so the per-id record count after the loop equals the count of live
records with that id before it. -/
theorem step6Go_objects_count (env : NetworkEnv) (remap : List (Nat × Nat)) :
    ∀ (objs : List NetworkReplicatedObject) (tbl : SerTable) (oid : Nat),
      ((step6Go env remap tbl objs).2.1.countP (fun r => r.objectId == oid))
        = objs.countP (fun r => r.objectAlive && r.objectId == oid) := by
  intro objs
  induction objs with
  | nil =>
    intro tbl oid
    simp [step6Go]
  | cons item rest ih =>
    intro tbl oid
    unfold step6Go
    split
    · rename_i hdead
      have h1 : item.objectAlive = false := by simpa using hdead
      simp [List.countP_cons, h1, ih]
    · rename_i hdead
      have h1 : item.objectAlive = true := by simpa using hdead
      split
      · simp [List.countP_cons, h1, ih]
      · cases hinv : (invokeSerializer tbl item.objType true).2 with
        | none =>
          by_cases hwarn : item.invalidTypeWarn = true <;>
            simp [hinv, hwarn, List.countP_cons, h1, ih]
        | some p =>
          simp [hinv, List.countP_cons, h1, ih]

/-- Helper: one drain iteration over a fresh intent whose object has no
record yet behaves like the same iteration on the state AddObject produced
(the source adds the record and re-runs the lookup within the iteration). -/
theorem spawnDrainGo_cons_absent (env : NetworkEnv) (fuel : Nat) (st : ReplicatorState)
    (obj : ScriptingObjectModel) (rest : List SpawnItem)
    (hnone : findObjIdx st.objects obj.id = Option.none)
    (halive : obj.alive = true) (hoff : env.offline = false) (hsrv : env.isClient = false)
    (hfound : findObjIdx (st.objects ++ [drainAddedRecord obj]) obj.id
        = Option.some st.objects.length) :
    spawnDrainGo env fuel st ({ object := obj } :: rest)
      = spawnDrainGo env fuel
          { st with objects := st.objects ++ [drainAddedRecord obj] }
          ({ object := obj } :: rest) := by
  have hadd : addObject env st obj Option.none
      = { st with objects := st.objects ++ [drainAddedRecord obj] } := by
    simp [addObject, halive, hoff, hnone, hsrv, drainAddedRecord]
  simp only [spawnDrainGo, hnone, hadd, hfound]

/-- Helper: one drain iteration over a fresh intent whose object already has
a record owned authoritatively by the local peer sends the spawn message for
the record and marks it Spawned. -/
theorem spawnDrainGo_cons_present (env : NetworkEnv) (fuel : Nat) (st : ReplicatorState)
    (obj : ScriptingObjectModel) (rest : List SpawnItem) (i : Nat)
    (item : NetworkReplicatedObject)
    (hfind : findObjIdx st.objects obj.id = Option.some i)
    (hget : st.objects[i]? = Option.some item)
    (hown : (item.ownerClientId != env.localClientId
        || item.role != NetworkObjectRole.ownedAuthoritative) = false)
    (hsrv : env.isClient = false) :
    spawnDrainGo env fuel st ({ object := obj } :: rest)
      = ((spawnDrainGo env fuel
            { st with objects := st.objects.set i { item with spawned := true } } rest).1,
         NetEvent.sendSpawn item.objectId item.parentId item.ownerClientId
             (buildCachedTargetsIds env.clients item.targetClientIds serverClientId)
           :: (spawnDrainGo env fuel
            { st with objects := st.objects.set i { item with spawned := true } } rest).2) := by
  simp [spawnDrainGo, hfind, hget, hown, sendObjectSpawnMessage, hsrv]

/-- Helper: the drain over two identical fresh intents for a live object on
the server adds one record (through AddObject, then marked Spawned) and
emits the same spawn message twice, because the second intent passes the
owner and role checks with no check of the Spawned flag. -/
theorem spawnDrainGo_double_new (env : NetworkEnv) (fuel : Nat) (st : ReplicatorState)
    (obj : ScriptingObjectModel)
    (halive : obj.alive = true) (hoff : env.offline = false)
    (hsrv : env.isClient = false) (hlocal : env.localClientId = serverClientId)
    (habsent : ∀ r ∈ st.objects, (r.objectId == obj.id) = false) :
    spawnDrainGo env fuel st [{ object := obj }, { object := obj }]
      = ({ st with objects := st.objects ++ [drainSpawnedRecord obj] },
         [drainSpawnEvent env obj, drainSpawnEvent env obj]) := by
  have hnone : findObjIdx st.objects obj.id = Option.none := findObjIdx_eq_none _ _ habsent
  have hfound : findObjIdx (st.objects ++ [drainAddedRecord obj]) obj.id
      = Option.some st.objects.length :=
    findObjIdx_append_cons st.objects _ [] obj.id habsent (by simp [drainAddedRecord])
  have hget : (st.objects ++ [drainAddedRecord obj])[st.objects.length]?
      = Option.some (drainAddedRecord obj) := List.getElem?_concat_length _ _
  have hfound1 : findObjIdx (st.objects ++ [drainSpawnedRecord obj]) obj.id
      = Option.some st.objects.length :=
    findObjIdx_append_cons st.objects _ [] obj.id habsent (by simp [drainSpawnedRecord])
  have hget1 : (st.objects ++ [drainSpawnedRecord obj])[st.objects.length]?
      = Option.some (drainSpawnedRecord obj) := List.getElem?_concat_length _ _
  have hown : ((drainAddedRecord obj).ownerClientId != env.localClientId
      || (drainAddedRecord obj).role != NetworkObjectRole.ownedAuthoritative) = false := by
    simp [drainAddedRecord, hlocal]
  have hown1 : ((drainSpawnedRecord obj).ownerClientId != env.localClientId
      || (drainSpawnedRecord obj).role != NetworkObjectRole.ownedAuthoritative) = false := by
    simp [drainSpawnedRecord, hlocal]
  have hupd : ({ drainAddedRecord obj with spawned := true } : NetworkReplicatedObject)
      = drainSpawnedRecord obj := rfl
  have hupd1 : ({ drainSpawnedRecord obj with spawned := true } : NetworkReplicatedObject)
      = drainSpawnedRecord obj := rfl
  have hsetEq : (st.objects ++ [drainAddedRecord obj]).set st.objects.length
      ({ drainAddedRecord obj with spawned := true }) = st.objects ++ [drainSpawnedRecord obj] := by
    simp [hupd]
  have hsetEq1 : (st.objects ++ [drainSpawnedRecord obj]).set st.objects.length
      ({ drainSpawnedRecord obj with spawned := true }) = st.objects ++ [drainSpawnedRecord obj] := by
    simp [hupd1]
  rw [spawnDrainGo_cons_absent env fuel st obj _ hnone halive hoff hsrv hfound]
  rw [spawnDrainGo_cons_present env fuel _ obj _ st.objects.length (drainAddedRecord obj)
    hfound hget hown hsrv]
  dsimp only
  rw [hsetEq]
  rw [spawnDrainGo_cons_present env fuel _ obj _ st.objects.length (drainSpawnedRecord obj)
    hfound1 hget1 hown1 hsrv]
  dsimp only
  rw [hsetEq1]
  simp [spawnDrainGo, drainSpawnEvent, drainAddedRecord, drainSpawnedRecord]

/-- Helper: on a server with a non-empty registry, at least one connected
client, no pending despawns, and no late-joining clients, the update reduces
to the spawn drain followed by the per-record broadcast. -/
theorem networkReplicatorUpdate_reduces (env : NetworkEnv) (fuel : Nat)
    (st : ReplicatorState) (hne : st.objects ≠ []) (hnc : st.newClients = [])
    (hdq : st.despawnQueue = []) (hsrv : env.isClient = false)
    (htgt : buildCachedTargetsAll env.clients ≠ []) :
    networkReplicatorUpdate env fuel st
      = ({ (spawnDrain env fuel st).1 with
            objects := (step6Go env (spawnDrain env fuel st).1.idsRemappingTable
              (spawnDrain env fuel st).1.serializersTable
              (spawnDrain env fuel st).1.objects).2.1,
            serializersTable := (step6Go env (spawnDrain env fuel st).1.idsRemappingTable
              (spawnDrain env fuel st).1.serializersTable
              (spawnDrain env fuel st).1.objects).1,
            lookupMappingPublished := false },
         (spawnDrain env fuel st).2
           ++ (step6Go env (spawnDrain env fuel st).1.idsRemappingTable
              (spawnDrain env fuel st).1.serializersTable
              (spawnDrain env fuel st).1.objects).2.2) := by
  have hisE : st.objects.isEmpty = false := by simpa [List.isEmpty_iff] using hne
  have htgtE : (buildCachedTargetsAll env.clients).isEmpty = false := by
    simpa [List.isEmpty_iff] using htgt
  have hstEq : ({ st with despawnQueue := [], newClients := [] } : ReplicatorState) = st := by
    rw [← hdq, ← hnc]
  unfold networkReplicatorUpdate
  rw [hisE]
  simp only [Bool.false_eq_true, if_false, hnc, hsrv, htgtE, hdq, despawnDrainEvents,
    List.isEmpty_nil, Bool.not_true, Bool.and_false, Bool.not_false, Bool.and_true,
    List.map_nil]
  rw [hstEq]
  simp

/-- C5 amended: spawning a fresh live object twice in the same frame on the
server (with no other pending spawn or despawn intents and no late-joining
clients) leaves exactly one registry record for it but enqueues two spawn
intents, and the replication loop emits one spawn message per intent — two
messages, not one; only a spawn for an object already marked Spawned from an
earlier flush is dropped. -/
theorem c5_spawn_twice_two_messages_one_record (env : NetworkEnv)
    (st : ReplicatorState) (obj : ScriptingObjectModel) (fuel : Nat)
    (hsrv : env.isClient = false) (hlocal : env.localClientId = serverClientId)
    (hoff : env.offline = false) (halive : obj.alive = true)
    (habsent : ∀ r ∈ st.objects, (r.objectId == obj.id) = false)
    (hne : st.objects ≠ []) (hq : st.spawnQueue = []) (hdq : st.despawnQueue = [])
    (hnc : st.newClients = []) (htgt : buildCachedTargetsAll env.clients ≠ []) :
    (spawnObject env (spawnObject env st obj []) obj []).spawnQueue
        = [{ object := obj }, { object := obj }] ∧
    ((networkReplicatorUpdate env fuel
        (spawnObject env (spawnObject env st obj []) obj [])).2.countP
          (isSpawnFor obj.id)) = 2 ∧
    ((networkReplicatorUpdate env fuel
        (spawnObject env (spawnObject env st obj []) obj [])).1.objects.countP
          (fun r => r.objectId == obj.id)) = 1 := by
  have hfindn : st.objects.find? (fun r => r.objectId == obj.id) = Option.none :=
    List.find?_eq_none.mpr (fun x hx => by simp [habsent x hx])
  have e2 : spawnObject env (spawnObject env st obj []) obj []
      = { st with spawnQueue := [{ object := obj }, { object := obj }] } := by
    simp [spawnObject, halive, hoff, hfindn, hq]
  rw [e2]
  have hpre : spawnPrePass [({ object := obj } : SpawnItem), { object := obj }]
      = [{ object := obj }, { object := obj }] := by
    refine spawnPrePass_no_ownership _ ?_
    intro q hq2
    rcases List.mem_cons.mp hq2 with h | h
    · subst h
      rfl
    · simp only [List.mem_singleton] at h
      subst h
      rfl
  have hdrain : spawnDrain env fuel { st with spawnQueue := [{ object := obj }, { object := obj }] }
      = ({ st with spawnQueue := [], objects := st.objects ++ [drainSpawnedRecord obj] },
         [drainSpawnEvent env obj, drainSpawnEvent env obj]) := by
    unfold spawnDrain
    dsimp only
    rw [hpre]
    rw [spawnDrainGo_double_new env fuel
      { st with spawnQueue := [{ object := obj }, { object := obj }] } obj halive hoff hsrv
      hlocal habsent]
  rw [networkReplicatorUpdate_reduces env fuel
    { st with spawnQueue := [{ object := obj }, { object := obj }] } hne hnc hdq hsrv htgt]
  rw [hdrain]
  refine ⟨rfl, ?_, ?_⟩
  · dsimp only
    rw [List.countP_append]
    rw [step6Go_events_no_spawn env st.idsRemappingTable _ st.serializersTable obj.id]
    simp [isSpawnFor, drainSpawnEvent]
  · dsimp only
    rw [step6Go_objects_count env st.idsRemappingTable _ st.serializersTable obj.id]
    rw [List.countP_append]
    have hz : st.objects.countP (fun r => r.objectAlive && r.objectId == obj.id) = 0 := by
      refine List.countP_eq_zero.mpr ?_
      intro r hr
      simp [habsent r hr]
    rw [hz]
    simp [drainSpawnedRecord]

/-- C5 amended witness: the concrete scenario instantiating the amended
claim (two messages, one record). -/
theorem c5_spawn_twice_two_messages_one_record_witness :
    ((networkReplicatorUpdate c5Env 1
        (spawnObject c5Env (spawnObject c5Env c5State c5Obj []) c5Obj [])).2.countP
          (isSpawnFor c5Obj.id)) = 2 ∧
    ((networkReplicatorUpdate c5Env 1
        (spawnObject c5Env (spawnObject c5Env c5State c5Obj []) c5Obj [])).1.objects.countP
          (fun r => r.objectId == c5Obj.id)) = 1 := by
  have h := c5_spawn_twice_two_messages_one_record c5Env c5State c5Obj 1
    (by decide) (by decide) (by decide) (by decide) (by decide) (by decide) (by decide)
    (by decide) (by decide) (by decide)
  exact ⟨h.2.1, h.2.2⟩

end FlaxNet
